import Mathlib

/-!
Shallow embedding of the deal.II `LogStream` class (base/logstream.h).

The repository consists of the single header `logstream.h`.  The bodies of
`operator<<` (the generic write) and of the manipulator `endl` (the line
terminator) are present in the header and are embedded here from that
source.  The remaining members (`push`, `pop`, `attach`, `detach`,
`depth_console`, `depth_file`, `log_execution_time`, `get_file_stream`,
`print_line_head` and the constructor) are only declared in the header;
their definitions below are modelled from the specification and are marked
as such in their doc comments.

Sinks are modelled by the text they have accumulated: `std_out` is the
contents of the primary (console-like) sink, `file` is `none` when no
secondary sink is attached and `some c` when a secondary sink holding the
text `c` is attached.  The external time source is passed as an explicit
`time` argument to the operations that may print a line head.
-/

namespace LogStreamModel

/-- Errors of the abstract error taxonomy of the specification:
`scopeUnderflow` for popping an empty stack, `noSecondarySink` for
requesting the secondary sink when none is attached (the header declares
the exception `ExcNoFileStreamGiven` for the latter). -/
inductive LogError where
  | scopeUnderflow
  | noSecondarySink
deriving DecidableEq

/-- State of a `LogStream` object together with the contents of its sinks.
`prefixes` holds the pushed labels in push order (oldest first, most recent
last); `std_out` is the accumulated primary sink text; `file` is the
attached secondary sink's accumulated text, `none` when detached;
`was_endl` is the pending-header flag; `std_depth` and `file_depth` are the
per-sink depth limits; `print_utime` is the time-stamp flag. -/
structure LogStream where
  prefixes : List String
  std_out : String
  file : Option String
  was_endl : Bool
  std_depth : Nat
  file_depth : Nat
  print_utime : Bool
deriving DecidableEq

/-- Modelled from the spec: `push` (the body of `LogStream::push` is not in
the header); it appends the label to the stack of scope labels and touches
nothing else. -/
def push (s : LogStream) (text : String) : LogStream :=
  { s with prefixes := s.prefixes ++ [text] }

/-- Modelled from the spec: `pop` (the body of `LogStream::pop` is not in
the header); on an empty stack it fails loudly with `scopeUnderflow` and
leaves the state unchanged, otherwise it removes the most recently pushed
label. -/
def pop (s : LogStream) : LogStream × Option LogError :=
  if s.prefixes = [] then (s, some LogError.scopeUnderflow)
  else ({ s with prefixes := s.prefixes.dropLast }, none)

/-- Modelled from the spec: `attach` (body not in the header) installs a
secondary sink; `contents` is the text the caller's stream already holds. -/
def attach (s : LogStream) (contents : String) : LogStream :=
  { s with file := some contents }

/-- Modelled from the spec: `detach` (body not in the header) clears the
secondary sink reference. -/
def detach (s : LogStream) : LogStream :=
  { s with file := none }

/-- Modelled from the spec: `depth_console` (body not in the header) sets
the primary depth limit. -/
def depth_console (s : LogStream) (n : Nat) : LogStream :=
  { s with std_depth := n }

/-- Modelled from the spec: `depth_file` (body not in the header) sets the
secondary depth limit. -/
def depth_file (s : LogStream) (n : Nat) : LogStream :=
  { s with file_depth := n }

/-- Modelled from the spec: `log_execution_time` (body not in the header)
sets the time-stamp flag. -/
def log_execution_time (s : LogStream) (flag : Bool) : LogStream :=
  { s with print_utime := flag }

/-- Modelled from the spec: `get_file_stream` (body not in the header)
returns the attached secondary sink and signals the checked error
`noSecondarySink` (the header's `ExcNoFileStreamGiven`) when none is
attached. -/
def get_file_stream (s : LogStream) : Except LogError String :=
  match s.file with
  | none => Except.error LogError.noSecondarySink
  | some f => Except.ok f

/-- Modelled from the spec: the text of the stack of scope labels as it
appears in a line head, each pushed label followed by one colon (so the
innermost label carries the trailing colon and the empty stack renders as
the empty string). -/
def prefix_text : List String → String
  | [] => ""
  | p :: ps => p ++ ":" ++ prefix_text ps

/-- Modelled from the spec: the full line head, an optional leading
time token (present when `print_utime` is set, terminated by a colon)
followed by the rendered stack of scope labels. -/
def line_head (s : LogStream) (time : String) : String :=
  (if s.print_utime then time ++ ":" else "") ++ prefix_text s.prefixes

/-- Guarded emission to the primary sink, the embedding of the statement
`if (prefixes.size() <= std_depth) *std_out << t;` of the header. -/
def to_std (s : LogStream) (t : String) : LogStream :=
  if s.prefixes.length ≤ s.std_depth then { s with std_out := s.std_out ++ t } else s

/-- Guarded emission to the secondary sink, the embedding of the statement
`if (file && (prefixes.size() <= file_depth)) *file << t;` of the header. -/
def to_file (s : LogStream) (t : String) : LogStream :=
  match s.file with
  | some f => if s.prefixes.length ≤ s.file_depth then { s with file := some (f ++ t) } else s
  | none => s

/-- Modelled from the spec: `print_line_head` (body not in the header)
renders the line head once and emits it through each sink under that
sink's own depth check, the same checks the write path uses. -/
def print_line_head (s : LogStream) (time : String) : LogStream :=
  to_file (to_std s (line_head s time)) (line_head s time)

/-- Embedding of the inline template `LogStream::operator<<` from the
header: if the previous operation was an `endl`, print the line head and
clear the flag, then emit the rendered value through each sink under its
depth check. -/
def write (s : LogStream) (time t : String) : LogStream :=
  let s1 := if s.was_endl then { print_line_head s time with was_endl := false } else s
  to_file (to_std s1 t) t

/-- Embedding of the inline friend function `endl` from the header: emit a
line break through each sink under its depth check, then set the
pending-header flag unconditionally. -/
def endl (s : LogStream) : LogStream :=
  { to_file (to_std s "\n") "\n" with was_endl := true }

/-- Modelled from the spec: the freshly constructed logger (constructor
body not in the header): empty stack, empty primary sink, no secondary
sink, pending-header flag set so the first line gets a head, an
effectively unbounded primary depth limit, a secondary depth limit that
keeps the secondary silent until configured, and no time stamps. -/
def init : LogStream :=
  { prefixes := [], std_out := "", file := none, was_endl := true,
    std_depth := 10000, file_depth := 0, print_utime := false }

/-- Concrete state for the independent-filtering scenario: secondary sink
attached, console depth 1, file depth 99, two labels pushed. -/
def c1s : LogStream :=
  { prefixes := ["a", "b"], std_out := "", file := some "", was_endl := false,
    std_depth := 1, file_depth := 99, print_utime := false }

/-- Concrete state with an empty stack and console depth limit 0. -/
def c2s : LogStream :=
  { prefixes := [], std_out := "", file := none, was_endl := false,
    std_depth := 0, file_depth := 0, print_utime := false }

/-- Final state of the round-trip scenario: from a fresh logger, push
"solve", push "iter", write "residual=1e-3", terminate the line, pop
twice, then write "done". -/
def c7_final : LogStream :=
  write ((pop ((pop (endl (write (push (push init "solve") "iter") ""
    "residual=1e-3"))).1)).1) "" "done"

theorem to_std_prefixes (s : LogStream) (t : String) : (to_std s t).prefixes = s.prefixes := by
  unfold to_std; split <;> rfl

theorem to_std_file (s : LogStream) (t : String) : (to_std s t).file = s.file := by
  unfold to_std; split <;> rfl

theorem to_std_was_endl (s : LogStream) (t : String) : (to_std s t).was_endl = s.was_endl := by
  unfold to_std; split <;> rfl

theorem to_std_std_depth (s : LogStream) (t : String) : (to_std s t).std_depth = s.std_depth := by
  unfold to_std; split <;> rfl

theorem to_std_file_depth (s : LogStream) (t : String) : (to_std s t).file_depth = s.file_depth := by
  unfold to_std; split <;> rfl

theorem to_std_print_utime (s : LogStream) (t : String) : (to_std s t).print_utime = s.print_utime := by
  unfold to_std; split <;> rfl

theorem to_std_std_out (s : LogStream) (t : String) :
    (to_std s t).std_out =
      if s.prefixes.length ≤ s.std_depth then s.std_out ++ t else s.std_out := by
  unfold to_std; split <;> rfl

theorem to_file_prefixes (s : LogStream) (t : String) : (to_file s t).prefixes = s.prefixes := by
  unfold to_file; split <;> first | rfl | (split <;> rfl)

theorem to_file_std_out (s : LogStream) (t : String) : (to_file s t).std_out = s.std_out := by
  unfold to_file; split <;> first | rfl | (split <;> rfl)

theorem to_file_was_endl (s : LogStream) (t : String) : (to_file s t).was_endl = s.was_endl := by
  unfold to_file; split <;> first | rfl | (split <;> rfl)

theorem to_file_std_depth (s : LogStream) (t : String) : (to_file s t).std_depth = s.std_depth := by
  unfold to_file; split <;> first | rfl | (split <;> rfl)

theorem to_file_file_depth (s : LogStream) (t : String) : (to_file s t).file_depth = s.file_depth := by
  unfold to_file; split <;> first | rfl | (split <;> rfl)

theorem to_file_print_utime (s : LogStream) (t : String) : (to_file s t).print_utime = s.print_utime := by
  unfold to_file; split <;> first | rfl | (split <;> rfl)

theorem to_file_file (s : LogStream) (t : String) :
    (to_file s t).file =
      if s.prefixes.length ≤ s.file_depth then s.file.map (fun f => f ++ t) else s.file := by
  unfold to_file
  rcases h : s.file with _ | f
  · simp [h]
  · by_cases hd : s.prefixes.length ≤ s.file_depth <;> simp [hd, h]

theorem line_head_congr (s1 s2 : LogStream) (time : String)
    (hp : s1.prefixes = s2.prefixes) (hu : s1.print_utime = s2.print_utime) :
    line_head s1 time = line_head s2 time := by
  unfold line_head; rw [hp, hu]

theorem print_line_head_prefixes (s : LogStream) (time : String) :
    (print_line_head s time).prefixes = s.prefixes := by
  unfold print_line_head; rw [to_file_prefixes, to_std_prefixes]

theorem print_line_head_was_endl (s : LogStream) (time : String) :
    (print_line_head s time).was_endl = s.was_endl := by
  unfold print_line_head; rw [to_file_was_endl, to_std_was_endl]

theorem print_line_head_std_depth (s : LogStream) (time : String) :
    (print_line_head s time).std_depth = s.std_depth := by
  unfold print_line_head; rw [to_file_std_depth, to_std_std_depth]

theorem print_line_head_file_depth (s : LogStream) (time : String) :
    (print_line_head s time).file_depth = s.file_depth := by
  unfold print_line_head; rw [to_file_file_depth, to_std_file_depth]

theorem print_line_head_print_utime (s : LogStream) (time : String) :
    (print_line_head s time).print_utime = s.print_utime := by
  unfold print_line_head; rw [to_file_print_utime, to_std_print_utime]

theorem print_line_head_std_out (s : LogStream) (time : String) :
    (print_line_head s time).std_out =
      if s.prefixes.length ≤ s.std_depth then s.std_out ++ line_head s time
      else s.std_out := by
  unfold print_line_head; rw [to_file_std_out, to_std_std_out]

theorem print_line_head_file (s : LogStream) (time : String) :
    (print_line_head s time).file =
      if s.prefixes.length ≤ s.file_depth then s.file.map (fun f => f ++ line_head s time)
      else s.file := by
  unfold print_line_head
  rw [to_file_file, to_std_prefixes, to_std_file_depth, to_std_file]

theorem write_prefixes (s : LogStream) (time t : String) :
    (write s time t).prefixes = s.prefixes := by
  unfold write
  rw [to_file_prefixes, to_std_prefixes]
  split <;> simp [print_line_head_prefixes]

theorem write_std_depth (s : LogStream) (time t : String) :
    (write s time t).std_depth = s.std_depth := by
  unfold write
  rw [to_file_std_depth, to_std_std_depth]
  split <;> simp [print_line_head_std_depth]

theorem write_file_depth (s : LogStream) (time t : String) :
    (write s time t).file_depth = s.file_depth := by
  unfold write
  rw [to_file_file_depth, to_std_file_depth]
  split <;> simp [print_line_head_file_depth]

theorem write_print_utime (s : LogStream) (time t : String) :
    (write s time t).print_utime = s.print_utime := by
  unfold write
  rw [to_file_print_utime, to_std_print_utime]
  split <;> simp [print_line_head_print_utime]

theorem write_was_endl (s : LogStream) (time t : String) :
    (write s time t).was_endl = false := by
  unfold write
  rw [to_file_was_endl, to_std_was_endl]
  rcases h : s.was_endl <;> simp [h]

theorem write_std_out (s : LogStream) (time t : String) :
    (write s time t).std_out =
      if s.prefixes.length ≤ s.std_depth then
        (if s.was_endl then s.std_out ++ line_head s time ++ t else s.std_out ++ t)
      else s.std_out := by
  unfold write
  rw [to_file_std_out, to_std_std_out]
  rcases h : s.was_endl
  · simp [h]
  · by_cases hd : s.prefixes.length ≤ s.std_depth <;>
      simp [h, hd, print_line_head_prefixes, print_line_head_std_depth, print_line_head_std_out]

theorem write_file (s : LogStream) (time t : String) :
    (write s time t).file =
      if s.prefixes.length ≤ s.file_depth then
        (if s.was_endl then s.file.map (fun f => f ++ line_head s time ++ t)
         else s.file.map (fun f => f ++ t))
      else s.file := by
  unfold write
  rw [to_file_file, to_std_prefixes, to_std_file_depth, to_std_file]
  rcases h : s.was_endl
  · simp [h]
  · by_cases hd : s.prefixes.length ≤ s.file_depth <;>
      simp [h, hd, print_line_head_prefixes, print_line_head_file_depth, print_line_head_file,
        Option.map_map, Function.comp_def, String.append_assoc]

theorem endl_prefixes (s : LogStream) : (endl s).prefixes = s.prefixes := by
  unfold endl
  show (to_file (to_std s "\n") "\n").prefixes = s.prefixes
  rw [to_file_prefixes, to_std_prefixes]

theorem endl_std_depth (s : LogStream) : (endl s).std_depth = s.std_depth := by
  unfold endl
  show (to_file (to_std s "\n") "\n").std_depth = s.std_depth
  rw [to_file_std_depth, to_std_std_depth]

theorem endl_file_depth (s : LogStream) : (endl s).file_depth = s.file_depth := by
  unfold endl
  show (to_file (to_std s "\n") "\n").file_depth = s.file_depth
  rw [to_file_file_depth, to_std_file_depth]

theorem endl_print_utime (s : LogStream) : (endl s).print_utime = s.print_utime := by
  unfold endl
  show (to_file (to_std s "\n") "\n").print_utime = s.print_utime
  rw [to_file_print_utime, to_std_print_utime]

theorem endl_was_endl (s : LogStream) : (endl s).was_endl = true := rfl

theorem endl_std_out (s : LogStream) :
    (endl s).std_out =
      if s.prefixes.length ≤ s.std_depth then s.std_out ++ "\n" else s.std_out := by
  unfold endl
  show (to_file (to_std s "\n") "\n").std_out = _
  rw [to_file_std_out, to_std_std_out]

theorem endl_file (s : LogStream) :
    (endl s).file =
      if s.prefixes.length ≤ s.file_depth then s.file.map (fun f => f ++ "\n")
      else s.file := by
  unfold endl
  show (to_file (to_std s "\n") "\n").file = _
  rw [to_file_file, to_std_prefixes, to_std_file_depth, to_std_file]

theorem pop_of_nil (s : LogStream) (h : s.prefixes = []) :
    pop s = (s, some LogError.scopeUnderflow) := by
  unfold pop; simp [h]

theorem pop_of_ne_nil (s : LogStream) (h : s.prefixes ≠ []) :
    pop s = ({ s with prefixes := s.prefixes.dropLast }, none) := by
  unfold pop; simp [h]

theorem intercalate_go_colon (as : List String) :
    ∀ acc : String, String.intercalate.go acc ":" as ++ ":" = acc ++ ":" ++ prefix_text as := by
  induction as with
  | nil =>
      intro acc
      simp [String.intercalate.go, prefix_text, String.append_empty]
  | cons a as ih =>
      intro acc
      simp only [String.intercalate.go, prefix_text]
      rw [ih]
      simp [String.append_assoc]

theorem prefix_text_eq_join (l : List String) (h : l ≠ []) :
    prefix_text l = String.intercalate ":" l ++ ":" := by
  cases l with
  | nil => exact absurd rfl h
  | cons a as =>
      show prefix_text (a :: as) = String.intercalate.go a ":" as ++ ":"
      rw [intercalate_go_colon as a]
      rfl

/-- Claim C1: with a secondary sink attached, console depth limit 1 and
file depth limit 99, a write at stack depth 2 emits the rendered value
(preceded by the line head when one is pending) to the secondary sink and
nothing to the primary sink; popping once gives a depth-1 state with the
same sinks and limits, and a write at depth 1 emits the value to both
sinks. -/
theorem C1_independent_depth_limits (s : LogStream) (f time t : String)
    (hf : s.file = some f) (hsd : s.std_depth = 1) (hfd : s.file_depth = 99) :
    (s.prefixes.length = 2 →
      (write s time t).std_out = s.std_out ∧
      ((write s time t).file = some (f ++ t) ∨
        (write s time t).file = some (f ++ line_head s time ++ t)) ∧
      (pop s).1.prefixes.length = 1 ∧ (pop s).1.std_depth = 1 ∧
      (pop s).1.file_depth = 99 ∧ (pop s).1.file = some f) ∧
    (s.prefixes.length = 1 →
      ((write s time t).std_out = s.std_out ++ t ∨
        (write s time t).std_out = s.std_out ++ line_head s time ++ t) ∧
      ((write s time t).file = some (f ++ t) ∨
        (write s time t).file = some (f ++ line_head s time ++ t))) := by
  constructor
  · intro h2
    have hstd : ¬ s.prefixes.length ≤ s.std_depth := by rw [h2, hsd]; omega
    have hfile : s.prefixes.length ≤ s.file_depth := by rw [h2, hfd]; omega
    have hne : s.prefixes ≠ [] := by
      intro hnil; rw [hnil] at h2; simp at h2
    refine ⟨?_, ?_, ?_, ?_, ?_, ?_⟩
    · rw [write_std_out]; simp [hstd]
    · rw [write_file]
      rcases hw : s.was_endl
      · left; simp [hfile, hw, hf]
      · right; simp [hfile, hw, hf]
    · rw [pop_of_ne_nil s hne]; simp [List.length_dropLast, h2]
    · rw [pop_of_ne_nil s hne]; exact hsd
    · rw [pop_of_ne_nil s hne]; exact hfd
    · rw [pop_of_ne_nil s hne]; exact hf
  · intro h1
    have hstd : s.prefixes.length ≤ s.std_depth := by rw [h1, hsd]
    have hfile : s.prefixes.length ≤ s.file_depth := by rw [h1, hfd]; omega
    constructor
    · rw [write_std_out]
      rcases hw : s.was_endl
      · left; simp [hstd, hw]
      · right; simp [hstd, hw]
    · rw [write_file]
      rcases hw : s.was_endl
      · left; simp [hfile, hw, hf]
      · right; simp [hfile, hw, hf]

/-- Witness for C1 at the concrete state `c1s` (stack ["a", "b"], console
depth 1, file depth 99, secondary attached and empty): the write lands only
in the secondary sink, and after the pop a write lands in both. -/
theorem C1_independent_depth_limits_witness :
    ((write c1s "" "x").std_out = c1s.std_out ∧
      ((write c1s "" "x").file = some ("" ++ "x") ∨
        (write c1s "" "x").file = some ("" ++ line_head c1s "" ++ "x")) ∧
      (pop c1s).1.prefixes.length = 1 ∧ (pop c1s).1.std_depth = 1 ∧
      (pop c1s).1.file_depth = 99 ∧ (pop c1s).1.file = some "") ∧
    (((write (pop c1s).1 "" "y").std_out = (pop c1s).1.std_out ++ "y" ∨
      (write (pop c1s).1 "" "y").std_out =
        (pop c1s).1.std_out ++ line_head (pop c1s).1 "" ++ "y") ∧
      ((write (pop c1s).1 "" "y").file = some ("" ++ "y") ∨
        (write (pop c1s).1 "" "y").file = some ("" ++ line_head (pop c1s).1 "" ++ "y"))) :=
  ⟨(C1_independent_depth_limits c1s "" "" "x" rfl rfl rfl).1 rfl,
    (C1_independent_depth_limits (pop c1s).1 "" "" "y" (by decide) (by decide)
      (by decide)).2 (by decide)⟩

/-- Claim C2 (code bug): with the console depth limit set to 0 and an empty
prefix stack, a write still emits its text and a line terminator still
emits a line break to the primary sink, because the emission check
`prefixes.size() <= std_depth` holds at size 0 (0 <= 0), while the
documentation of `depth_console` in the header states that with n = 0 no
console output will be written. -/
theorem C2_depth_zero_console_still_emits :
    (write (depth_console c2s 0) "" "x").std_out = "x" ∧
    (endl (depth_console c2s 0)).std_out = "\n" := by decide

/-- Claim C3 (counterexample): for the empty prefix stack the rendered head
is the empty string, not the colon-join of the entries followed by one
extra trailing colon, which for the empty stack would be ":". -/
theorem C3_empty_stack_head_counterexample :
    prefix_text [] ≠ String.intercalate ":" [] ++ ":" := by decide

/-- Claim C3 (amended): for every non-empty prefix stack the rendered line
head (ignoring the optional time token) is the stack entries in push order
joined by single colons with exactly one extra trailing colon — in
particular the stack ["a", "b"] renders exactly as "a:b:" — while the
empty stack renders as the empty string; with time stamping off the line
head is exactly this rendering. -/
theorem C3_head_joined_with_trailing_colon :
    (∀ l : List String, l ≠ [] → prefix_text l = String.intercalate ":" l ++ ":") ∧
    prefix_text [] = "" ∧
    prefix_text ["a", "b"] = "a:b:" ∧
    (∀ (s : LogStream) (time : String), s.print_utime = false →
      line_head s time = prefix_text s.prefixes) := by
  refine ⟨fun l h => prefix_text_eq_join l h, rfl, by decide, fun s time h => ?_⟩
  unfold line_head
  rw [h]
  simp

/-- Witness for C3 at the stack ["a", "b"] and at the concrete state
`c1s`, whose time-stamp flag is off. -/
theorem C3_head_joined_witness :
    prefix_text ["a", "b"] = String.intercalate ":" ["a", "b"] ++ ":" ∧
    line_head c1s "" = prefix_text c1s.prefixes :=
  ⟨C3_head_joined_with_trailing_colon.1 ["a", "b"] (by decide),
    C3_head_joined_with_trailing_colon.2.2.2 c1s "" rfl⟩

/-- Claim C4: every line terminator sets the pending-header flag to true,
unconditionally, and every write leaves the flag false, whether or not any
sink received the text. -/
theorem C4_pending_header_flag (s : LogStream) (time t : String) :
    (endl s).was_endl = true ∧ (write s time t).was_endl = false :=
  ⟨endl_was_endl s, write_was_endl s time t⟩

/-- Claim C5: a line terminator followed by a write emits the rendered head
immediately before the written value on each sink that passes its depth
check at the time of the write, and two writes with no terminator between
them emit no head before the second value on any sink. -/
theorem C5_header_exactly_after_terminator (s : LogStream) (time time2 x a b : String) :
    ((write (endl s) time x).std_out =
      if s.prefixes.length ≤ s.std_depth then (endl s).std_out ++ line_head s time ++ x
      else (endl s).std_out) ∧
    ((write (endl s) time x).file =
      if s.prefixes.length ≤ s.file_depth
      then (endl s).file.map (fun f => f ++ line_head s time ++ x)
      else (endl s).file) ∧
    ((write (write s time a) time2 b).std_out =
      if s.prefixes.length ≤ s.std_depth then (write s time a).std_out ++ b
      else (write s time a).std_out) ∧
    ((write (write s time a) time2 b).file =
      if s.prefixes.length ≤ s.file_depth then (write s time a).file.map (fun f => f ++ b)
      else (write s time a).file) := by
  refine ⟨?_, ?_, ?_, ?_⟩
  · rw [write_std_out, endl_prefixes, endl_std_depth, endl_was_endl,
      line_head_congr (endl s) s time (endl_prefixes s) (endl_print_utime s)]
    simp
  · rw [write_file, endl_prefixes, endl_file_depth, endl_was_endl,
      line_head_congr (endl s) s time (endl_prefixes s) (endl_print_utime s)]
    simp
  · rw [write_std_out, write_prefixes, write_std_depth, write_was_endl]
    simp
  · rw [write_file, write_prefixes, write_file_depth, write_was_endl]
    simp

/-- Claim C6: pop on an empty stack fails loudly with the scope-underflow
error and returns the state with every field unchanged; pop on a non-empty
stack removes exactly the most recently pushed label and changes nothing
else. -/
theorem C6_pop_underflow_and_removal (s : LogStream) :
    (s.prefixes = [] → pop s = (s, some LogError.scopeUnderflow)) ∧
    (∀ xs x, s.prefixes = xs ++ [x] → pop s = ({ s with prefixes := xs }, none)) := by
  constructor
  · intro h; exact pop_of_nil s h
  · intro xs x h
    unfold pop
    simp [h]

/-- Witness for C6: a fresh logger underflows on pop, and after one push
the pop returns exactly the fresh logger again. -/
theorem C6_pop_witness :
    pop init = (init, some LogError.scopeUnderflow) ∧
    pop (push init "a") = (init, none) :=
  ⟨(C6_pop_underflow_and_removal init).1 rfl,
    (C6_pop_underflow_and_removal (push init "a")).2 [] "a" rfl⟩

/-- Claim C7: from a fresh logger with default limits and no secondary
sink, the sequence push "solve", push "iter", write "residual=1e-3",
terminate the line, pop, pop, write "done" leaves the primary sink holding
exactly "solve:iter:residual=1e-3", one line break, then "done", with no
trailing line break, and still no secondary sink. -/
theorem C7_round_trip :
    c7_final.std_out = "solve:iter:residual=1e-3\ndone" ∧ c7_final.file = none := by
  decide

/-- Claim C8: requesting the secondary sink's target with none attached
yields the checked noSecondarySink error (the header's
ExcNoFileStreamGiven) rather than a crash; with a sink attached the sink is
returned; and the outcome is independent of both depth limits, so
depth-based suppression is never surfaced as an error. -/
theorem C8_get_file_stream_checked (s : LogStream) :
    (s.file = none → get_file_stream s = Except.error LogError.noSecondarySink) ∧
    (∀ f, s.file = some f → get_file_stream s = Except.ok f) ∧
    (∀ n m, get_file_stream { s with std_depth := n, file_depth := m } = get_file_stream s) := by
  refine ⟨fun h => ?_, fun f h => ?_, fun n m => rfl⟩
  · unfold get_file_stream; rw [h]
  · unfold get_file_stream; rw [h]

/-- Witness for C8: a fresh logger has no secondary sink and errors, and
after attaching a sink holding "log" that sink is returned. -/
theorem C8_get_file_stream_witness :
    get_file_stream init = Except.error LogError.noSecondarySink ∧
    get_file_stream (attach init "log") = Except.ok "log" :=
  ⟨(C8_get_file_stream_checked init).1 rfl,
    (C8_get_file_stream_checked (attach init "log")).2.1 "log" rfl⟩

/-- Claim C9: write and the line terminator leave the prefix stack, both
depth limits, the time-stamp flag and the attachment of the secondary sink
unchanged; of the logger's own fields only the pending-header flag can
change (the text accumulated by the external sinks aside). -/
theorem C9_write_endl_frame (s : LogStream) (time t : String) :
    (write s time t).prefixes = s.prefixes ∧
    (write s time t).std_depth = s.std_depth ∧
    (write s time t).file_depth = s.file_depth ∧
    (write s time t).print_utime = s.print_utime ∧
    (write s time t).file.isSome = s.file.isSome ∧
    (endl s).prefixes = s.prefixes ∧
    (endl s).std_depth = s.std_depth ∧
    (endl s).file_depth = s.file_depth ∧
    (endl s).print_utime = s.print_utime ∧
    (endl s).file.isSome = s.file.isSome := by
  refine ⟨write_prefixes s time t, write_std_depth s time t, write_file_depth s time t,
    write_print_utime s time t, ?_, endl_prefixes s, endl_std_depth s, endl_file_depth s,
    endl_print_utime s, ?_⟩
  · rw [write_file]
    split
    · split <;> simp
    · rfl
  · rw [endl_file]
    split
    · simp
    · rfl

/-- Claim C10: a line terminator never emits a head: a second consecutive
terminator produces a bare line break on each sink that passes its depth
check, with no prefix text, even though the pending-header flag was set by
the first terminator. -/
theorem C10_double_terminator_bare_newline (s : LogStream) :
    ((endl (endl s)).std_out =
      if s.prefixes.length ≤ s.std_depth then (endl s).std_out ++ "\n"
      else (endl s).std_out) ∧
    ((endl (endl s)).file =
      if s.prefixes.length ≤ s.file_depth then (endl s).file.map (fun f => f ++ "\n")
      else (endl s).file) ∧
    (endl s).was_endl = true := by
  refine ⟨?_, ?_, endl_was_endl s⟩
  · rw [endl_std_out, endl_prefixes, endl_std_depth]
  · rw [endl_file, endl_prefixes, endl_file_depth]

end LogStreamModel
